import Mathlib

/-!
Verification of the go_session_store repository, shallowly embedded from
session_id_random.go: the retry orchestrator New, the shared collision
sentinel ErrSessionCollision, and the random identifier generator
randomSource.Generate.
-/

namespace GoSessionStore

/-- Go error values as produced by errors.New and by wrapping.  Go compares
errors made by errors.New by identity: two distinct calls to errors.New yield
distinct values even when the messages coincide, so each allocation carries a
distinct allocId.  An error that wraps another is a different value from the
error it wraps. -/
inductive GoError where
  | errorsNew (allocId : Nat) (msg : String)
  | wrap (inner : GoError) (msg : String)
  deriving DecidableEq, Repr

/-- The shared collision sentinel, from the source line
var ErrSessionCollision = errors.New("unable to store session, existing session ID already exists").
Allocation id 0 is reserved for it; every other errors.New value in a run has
a different allocId. -/
def ErrSessionCollision : GoError :=
  GoError.errorsNew 0 "unable to store session, existing session ID already exists"

/-- The response of one GenerateAndStore call: the session byte slice
(modelled as a list of byte values) and the error, where none models the Go
nil error. -/
abbrev StoreResult := List Nat × Option GoError

/-- A SessionStorer as observed by one invocation of New: New passes the same
ctx, userId and metaData to every call, so within one invocation the storer is
characterised by the response of its i-th GenerateAndStore call. -/
abbrev Storer := Nat → StoreResult

/-- The loop of New from the source, with i the index of the next
GenerateAndStore call and fuel the number of loop iterations still allowed
(maxGenerateAttempts minus i at entry).  Mirrors
for i := 0; i < maxGenerateAttempts; i++ \x7b session, err = storer.GenerateAndStore(ctx, userId, metaData); if err == ErrSessionCollision \x7b continue \x7d; return session, err \x7d
followed by return []byte\x7b\x7d, ErrSessionCollision. -/
def NewAux (storer : Storer) (i : Nat) : Nat → StoreResult
  | 0 => ([], some ErrSessionCollision)
  | fuel + 1 =>
    if (storer i).2 = some ErrSessionCollision then NewAux storer (i + 1) fuel
    else storer i

/-- New from the source.  maxGenerateAttempts is a Go int, hence Int here; a
zero or negative budget runs the loop body zero times, and Int.toNat sends
such budgets to fuel 0. -/
def New (storer : Storer) (maxGenerateAttempts : Int) : StoreResult :=
  NewAux storer 0 maxGenerateAttempts.toNat

/-- The number of GenerateAndStore calls the loop of New performs, following
the same recursion as NewAux. -/
def NewCallsAux (storer : Storer) (i : Nat) : Nat → Nat
  | 0 => 0
  | fuel + 1 =>
    if (storer i).2 = some ErrSessionCollision then 1 + NewCallsAux storer (i + 1) fuel
    else 1

/-- The number of GenerateAndStore calls one invocation of New performs. -/
def NewCalls (storer : Storer) (maxGenerateAttempts : Int) : Nat :=
  NewCallsAux storer 0 maxGenerateAttempts.toNat

/-- A Go io.Reader as used by randomSource: read b returns the contents of the
buffer after the call, the count of bytes read, and the error.  Read receives
the slice of the caller and writes into it, so it cannot change the length of
the buffer; the field read_len records that memory-model fact. -/
structure GoReader where
  read : List Nat → List Nat × Nat × Option GoError
  read_len : ∀ b, (read b).1.length = b.length

/-- The randomSource struct from the source.  bytes is the configured length;
the claims only concern lengths N >= 0, so Nat (make with a negative length
panics in Go and is outside every claim). -/
structure randomSource where
  reader : GoReader
  bytes : Nat

/-- Generate from the source:
b := make([]byte, r.bytes); _, err := r.reader.Read(b); return b, err.
make zero-fills the buffer; the count of bytes read is discarded, mirroring
the blank identifier in the source. -/
def randomSource.Generate (r : randomSource) : List Nat × Option GoError :=
  let b := List.replicate r.bytes 0
  let res := r.reader.read b
  (res.1, res.2.2)

/-- Modelled from the spec pseudocode of section 4.3, as the reference
algorithm for the refinement claim: attempt starts at 0; while
attempt < maxAttempts the storage collaborator is called; on the collision
signal attempt is incremented and the loop continues; on any other outcome
that result and error are returned; after the loop an empty identifier and
the collision signal are returned. -/
def specRetryAux (storage : Storer) (maxAttempts : Int) (attempt : Nat) : StoreResult :=
  if h : (attempt : Int) < maxAttempts then
    if (storage attempt).2 = some ErrSessionCollision then
      specRetryAux storage maxAttempts (attempt + 1)
    else storage attempt
  else ([], some ErrSessionCollision)
termination_by maxAttempts.toNat - attempt
decreasing_by simp_wf; omega

/-- Modelled from the spec pseudocode: the reference retry algorithm started
at attempt 0. -/
def specRetry (storage : Storer) (maxAttempts : Int) : StoreResult :=
  specRetryAux storage maxAttempts 0

/-- Helper: one colliding call adds one to the call count and dips into the
remaining fuel. -/
theorem newCallsAux_step (storer : Storer) (i fuel : Nat)
    (h : (storer i).2 = some ErrSessionCollision) :
    NewCallsAux storer i (fuel + 1) = 1 + NewCallsAux storer (i + 1) fuel := by
  simp only [NewCallsAux, if_pos h]

/-- Helper: a call made with positive fuel counts at least once. -/
theorem newCallsAux_pos (storer : Storer) (i f : Nat) :
    1 ≤ NewCallsAux storer i (f + 1) := by
  simp only [NewCallsAux]
  by_cases h : (storer i).2 = some ErrSessionCollision
  · rw [if_pos h]; omega
  · rw [if_neg h]

/-- Helper: when the first K calls starting at index i collide and call i + K
does not, the loop returns the response of call i + K and makes K + 1 calls,
provided the fuel covers K + 1 iterations. -/
theorem newAux_skip (storer : Storer) :
    ∀ (K i fuel : Nat), K < fuel →
      (∀ j, j < K → (storer (i + j)).2 = some ErrSessionCollision) →
      (storer (i + K)).2 ≠ some ErrSessionCollision →
      NewAux storer i fuel = storer (i + K) ∧
        NewCallsAux storer i fuel = K + 1 := by
  intro K
  induction K with
  | zero =>
    intro i fuel hf _ hK
    match fuel, hf with
    | f + 1, _ =>
      simp only [Nat.add_zero] at hK
      simp only [NewAux, NewCallsAux, if_neg hK]
      exact ⟨by simp, by trivial⟩
  | succ K ih =>
    intro i fuel hf hcoll hK
    match fuel, hf with
    | f + 1, _ =>
      have h0 : (storer i).2 = some ErrSessionCollision := by
        have := hcoll 0 (Nat.succ_pos K)
        simpa using this
      simp only [NewAux, NewCallsAux, if_pos h0]
      have hidx : i + 1 + K = i + (K + 1) := by omega
      have hrec := ih (i + 1) f (by omega)
        (fun j hj => by
          have := hcoll (j + 1) (by omega)
          have hj2 : i + 1 + j = i + (j + 1) := by omega
          rw [hj2]
          exact this)
        (by rw [hidx]; exact hK)
      refine ⟨?_, ?_⟩
      · rw [hrec.1, hidx]
      · rw [hrec.2]; omega

/-- Helper: when every call collides, the loop exhausts its fuel, returns the
empty slice with the collision sentinel, and makes exactly fuel calls. -/
theorem newAux_all_collide (storer : Storer)
    (hall : ∀ j, (storer j).2 = some ErrSessionCollision) :
    ∀ (fuel i : Nat),
      NewAux storer i fuel = ([], some ErrSessionCollision) ∧
        NewCallsAux storer i fuel = fuel := by
  intro fuel
  induction fuel with
  | zero => intro i; exact ⟨rfl, rfl⟩
  | succ f ih =>
    intro i
    simp only [NewAux, NewCallsAux, if_pos (hall i)]
    exact ⟨(ih (i + 1)).1, by rw [(ih (i + 1)).2]; omega⟩

/-- Helper: every call except possibly the last one returned the collision
sentinel; equivalently no other outcome is ever followed by another call. -/
theorem newCallsAux_prefix_collides (storer : Storer) :
    ∀ (fuel i j : Nat), j + 1 < NewCallsAux storer i fuel →
      (storer (i + j)).2 = some ErrSessionCollision := by
  intro fuel
  induction fuel with
  | zero =>
    intro i j h
    simp [NewCallsAux] at h
  | succ f ih =>
    intro i j h
    by_cases h0 : (storer i).2 = some ErrSessionCollision
    · simp only [NewCallsAux, if_pos h0] at h
      cases j with
      | zero => simpa using h0
      | succ j =>
        have hidx : i + (j + 1) = i + 1 + j := by omega
        rw [hidx]
        exact ih (i + 1) j (by omega)
    · simp only [NewCallsAux, if_neg h0] at h
      omega

/-- Helper: the loop result is either the exhaustion result or the verbatim
response of some non-colliding call. -/
theorem newAux_cases (storer : Storer) :
    ∀ (fuel i : Nat),
      NewAux storer i fuel = ([], some ErrSessionCollision) ∨
        ∃ j, NewAux storer i fuel = storer j ∧
          (storer j).2 ≠ some ErrSessionCollision := by
  intro fuel
  induction fuel with
  | zero => intro i; left; rfl
  | succ f ih =>
    intro i
    by_cases h0 : (storer i).2 = some ErrSessionCollision
    · simp only [NewAux, if_pos h0]
      exact ih (i + 1)
    · right
      exact ⟨i, by simp only [NewAux, if_neg h0], h0⟩

/-- Helper: the loop of New agrees with the reference algorithm of the spec
pseudocode when the fuel matches the remaining attempt budget. -/
theorem newAux_eq_specRetryAux (storer : Storer) (maxAttempts : Int) :
    ∀ (fuel i : Nat), fuel = maxAttempts.toNat - i →
      NewAux storer i fuel = specRetryAux storer maxAttempts i := by
  intro fuel
  induction fuel with
  | zero =>
    intro i hfi
    rw [specRetryAux, dif_neg (by omega)]
    rfl
  | succ f ih =>
    intro i hfi
    have hlt : (i : Int) < maxAttempts := by omega
    rw [specRetryAux, dif_pos hlt]
    simp only [NewAux]
    by_cases h0 : (storer i).2 = some ErrSessionCollision
    · rw [if_pos h0, if_pos h0]
      exact ih (i + 1) (by omega)
    · rw [if_neg h0, if_neg h0]

/-- Test storer: collides on the first call, then succeeds with session [5]. -/
def collideOnceStorer : Storer := fun i =>
  if i = 0 then ([], some ErrSessionCollision) else ([5], none)

/-- Test storer: collides on every call. -/
def alwaysCollideStorer : Storer := fun _ =>
  ([], some ErrSessionCollision)

/-- Test storer: fails every call with a non-collision backend error and an
empty session. -/
def backendErrStorer : Storer := fun _ =>
  ([], some (GoError.errorsNew 1 "storage backend unavailable"))

/-- Test storer: fails every call with a non-collision backend error while
also reporting a non-empty session slice. -/
def nonemptyErrStorer : Storer := fun _ =>
  ([1], some (GoError.errorsNew 1 "storage backend unavailable"))

/-- C1: for every maxGenerateAttempts and every storer whose GenerateAndStore
reports the collision error on each of its first K calls (K below
maxGenerateAttempts) and succeeds on call K + 1 returning session s, New
returns (s, nil) and GenerateAndStore is invoked exactly K + 1 times. -/
theorem C1_retry_on_collision (storer : Storer) (maxGenerateAttempts : Int)
    (K : Nat) (s : List Nat)
    (hK : (K : Int) < maxGenerateAttempts)
    (hcoll : ∀ j, j < K → (storer j).2 = some ErrSessionCollision)
    (hsucc : storer K = (s, none)) :
    New storer maxGenerateAttempts = (s, none) ∧
      NewCalls storer maxGenerateAttempts = K + 1 := by
  have h := newAux_skip storer K 0 maxGenerateAttempts.toNat (by omega)
    (fun j hj => by simpa using hcoll j hj)
    (by simp [hsucc])
  refine ⟨?_, h.2⟩
  rw [New, h.1]
  simpa using hsucc

/-- Witness for C1: one collision followed by success with session [5], under
a budget of 3, yields ([5], nil) after exactly 2 calls. -/
theorem C1_retry_on_collision_witness :
    New collideOnceStorer 3 = ([5], none) ∧ NewCalls collideOnceStorer 3 = 2 :=
  C1_retry_on_collision collideOnceStorer 3 1 [5] (by decide)
    (fun j hj => by
      have hj0 : j = 0 := by omega
      subst hj0
      rfl)
    rfl

/-- C2: for every nonnegative budget M and every storer that reports the
collision error on every call, New invokes GenerateAndStore exactly M times
and then returns an empty identifier together with the collision sentinel
itself, not a distinct exhaustion error. -/
theorem C2_exhaustion_reports_collision (storer : Storer) (M : Int)
    (hM : 0 ≤ M)
    (hall : ∀ j, (storer j).2 = some ErrSessionCollision) :
    New storer M = ([], some ErrSessionCollision) ∧
      (NewCalls storer M : Int) = M := by
  have h := newAux_all_collide storer hall M.toNat 0
  refine ⟨h.1, ?_⟩
  rw [NewCalls, h.2]
  omega

/-- Witness for C2: a storer that always collides, with budget 3, yields the
empty identifier with the collision sentinel after exactly 3 calls. -/
theorem C2_exhaustion_reports_collision_witness :
    New alwaysCollideStorer 3 = ([], some ErrSessionCollision) ∧
      (NewCalls alwaysCollideStorer 3 : Int) = 3 :=
  C2_exhaustion_reports_collision alwaysCollideStorer 3 (by decide)
    (fun _ => rfl)

/-- C3: for every storer whose GenerateAndStore fails on the first call with
an error that is not the collision sentinel, New (given at least one allowed
attempt) returns that error unmodified together with the session value of
that call, after exactly one invocation; and in general no non-collision
outcome is ever followed by another call: every call except the last returned
the collision sentinel. -/
theorem C3_no_retry_on_other_error (storer : Storer) (M : Int)
    (s : List Nat) (e : GoError)
    (hM : 0 < M)
    (h0 : storer 0 = (s, some e))
    (he : e ≠ ErrSessionCollision) :
    New storer M = (s, some e) ∧ NewCalls storer M = 1 ∧
      ∀ (st : Storer) (N : Int) (j : Nat), j + 1 < NewCalls st N →
        (st j).2 = some ErrSessionCollision := by
  have hne : (storer 0).2 ≠ some ErrSessionCollision := by
    rw [h0]
    simp
    exact he
  have h := newAux_skip storer 0 0 M.toNat (by omega)
    (fun j hj => absurd hj (by omega))
    (by simpa using hne)
  refine ⟨?_, h.2, ?_⟩
  · rw [New]
    rw [show (0 : Nat) + 0 = 0 from rfl] at h
    rw [h.1, h0]
  · intro st N j hj
    have := newCallsAux_prefix_collides st N.toNat 0 j hj
    simpa using this

/-- Witness for C3: a storer failing its first call with a backend error,
under budget 5, returns that error after exactly one call. -/
theorem C3_no_retry_on_other_error_witness :
    New backendErrStorer 5 =
        ([], some (GoError.errorsNew 1 "storage backend unavailable")) ∧
      NewCalls backendErrStorer 5 = 1 ∧
      ∀ (st : Storer) (N : Int) (j : Nat), j + 1 < NewCalls st N →
        (st j).2 = some ErrSessionCollision :=
  C3_no_retry_on_other_error backendErrStorer 5 []
    (GoError.errorsNew 1 "storage backend unavailable") (by decide) rfl
    (by decide)

/-- C4: for every storer, a zero or negative maxGenerateAttempts makes New
return the collision sentinel with an empty identifier without invoking
GenerateAndStore at all. -/
theorem C4_zero_budget (storer : Storer) (M : Int) (hM : M ≤ 0) :
    New storer M = ([], some ErrSessionCollision) ∧ NewCalls storer M = 0 := by
  have h0 : M.toNat = 0 := by omega
  rw [New, NewCalls, h0]
  exact ⟨rfl, rfl⟩

/-- Witness for C4: budget 0 returns the collision sentinel with the empty
identifier and zero calls, even against a storer that would succeed. -/
theorem C4_zero_budget_witness :
    New collideOnceStorer 0 = ([], some ErrSessionCollision) ∧
      NewCalls collideOnceStorer 0 = 0 :=
  C4_zero_budget collideOnceStorer 0 (by decide)

/-- C5: New is extensionally equal to the reference two-state retry machine of
the spec pseudocode, for every storer response sequence and every budget. -/
theorem C5_refines_spec_machine (storer : Storer) (maxAttempts : Int) :
    New storer maxAttempts = specRetry storer maxAttempts :=
  newAux_eq_specRetryAux storer maxAttempts maxAttempts.toNat 0 (by omega)

/-- C6 counterexample: a storer that fails its only call with a non-collision
error while reporting the non-empty session [1] makes New return that
non-empty identifier together with the non-nil error, so it is false that a
non-nil error from New always comes with an empty identifier. -/
theorem C6_counterexample :
    (New nonemptyErrStorer 1).2 ≠ none ∧ (New nonemptyErrStorer 1).1 ≠ [] := by
  decide

/-- C6 amended: New forwards the session value of a failing call verbatim, so
the identifier accompanying a non-nil error is empty provided the storer
pairs every non-collision error with an empty session (the exhaustion path
always returns the empty identifier). -/
theorem C6_empty_iff_storer_empty (storer : Storer) (M : Int)
    (hstore : ∀ i e, (storer i).2 = some e → e ≠ ErrSessionCollision →
      (storer i).1 = [])
    (herr : (New storer M).2 ≠ none) :
    (New storer M).1 = [] := by
  rcases newAux_cases storer M.toNat 0 with h | ⟨j, hj, hne⟩
  · rw [New, h]
  · rw [New, hj] at herr ⊢
    rcases he : (storer j).2 with _ | e
    · exact absurd he herr
    · refine hstore j e he ?_
      intro hcontr
      exact hne (by rw [he, hcontr])

/-- Witness for C6 amended: a storer pairing its backend error with an empty
session makes New return the empty identifier with that non-nil error. -/
theorem C6_empty_iff_storer_empty_witness :
    (New backendErrStorer 1).1 = [] :=
  C6_empty_iff_storer_empty backendErrStorer 1
    (fun _ _ _ _ => rfl)
    (by decide)

/-- C7: New retries if and only if the error of the call is the exact
sentinel value ErrSessionCollision: given budget at least 2, a second call
happens exactly when the first error equals the sentinel; any other error
value, including one carrying the same message under a different allocation
and one wrapping the sentinel, is returned immediately after one call. -/
theorem C7_sentinel_identity (storer : Storer) (M : Int)
    (s : List Nat) (e : GoError)
    (hM : 2 ≤ M)
    (h0 : storer 0 = (s, some e)) :
    (2 ≤ NewCalls storer M ↔ e = ErrSessionCollision) ∧
      (e ≠ ErrSessionCollision →
        New storer M = (s, some e) ∧ NewCalls storer M = 1) ∧
      GoError.errorsNew 1
          "unable to store session, existing session ID already exists" ≠
        ErrSessionCollision ∧
      GoError.wrap ErrSessionCollision "create session" ≠ ErrSessionCollision := by
  have herr0 : (storer 0).2 = some e := by rw [h0]
  have hother : e ≠ ErrSessionCollision →
      New storer M = (s, some e) ∧ NewCalls storer M = 1 := by
    intro hne
    have h := newAux_skip storer 0 0 M.toNat (by omega)
      (fun j hj => absurd hj (by omega))
      (by
        rw [show (0 : Nat) + 0 = 0 from rfl, herr0]
        simp
        exact hne)
    rw [show (0 : Nat) + 0 = 0 from rfl] at h
    exact ⟨by rw [New, h.1, h0], h.2⟩
  refine ⟨⟨?_, ?_⟩, hother, by decide, by decide⟩
  · intro h2
    by_contra hne
    have := (hother hne).2
    omega
  · intro hcoll
    subst hcoll
    have hcall0 : (storer 0).2 = some ErrSessionCollision := herr0
    have hM2 : ∃ f, M.toNat = f + 1 + 1 := ⟨M.toNat - 2, by omega⟩
    obtain ⟨f, hf⟩ := hM2
    rw [NewCalls, hf, newCallsAux_step storer 0 (f + 1) hcall0]
    have := newCallsAux_pos storer (0 + 1) f
    omega

/-- Witness for C7: a storer whose first call collides, under budget 2,
performs a second call; the distinct-allocation twin of the sentinel message
and the wrapped sentinel are both different values from the sentinel. -/
theorem C7_sentinel_identity_witness :
    (2 ≤ NewCalls alwaysCollideStorer 2 ↔
        ErrSessionCollision = ErrSessionCollision) ∧
      (ErrSessionCollision ≠ ErrSessionCollision →
        New alwaysCollideStorer 2 = ([], some ErrSessionCollision) ∧
          NewCalls alwaysCollideStorer 2 = 1) ∧
      GoError.errorsNew 1
          "unable to store session, existing session ID already exists" ≠
        ErrSessionCollision ∧
      GoError.wrap ErrSessionCollision "create session" ≠ ErrSessionCollision :=
  C7_sentinel_identity alwaysCollideStorer 2 [] ErrSessionCollision
    (by decide) rfl

/-- Test reader: fills the whole buffer with the byte 7 and succeeds. -/
def sevenReader : GoReader where
  read b := (List.map (fun _ => 7) b, b.length, none)
  read_len b := by simp

/-- Test source: sevenReader configured for 4-byte identifiers. -/
def sevenSource : randomSource := ⟨sevenReader, 4⟩

/-- Test reader: leaves the buffer untouched and reports 0 bytes read with a
nil error, a short read without an I/O error. -/
def shortReader : GoReader where
  read b := (b, 0, none)
  read_len _ := rfl

/-- Test source: shortReader configured for 16-byte identifiers. -/
def shortSource : randomSource := ⟨shortReader, 16⟩

/-- C8: for every configured length and every byte source, a Generate call
returning a nil error returns a byte sequence of exactly that length. -/
theorem C8_generate_length (r : randomSource)
    (_hok : (randomSource.Generate r).2 = none) :
    (randomSource.Generate r).1.length = r.bytes := by
  unfold randomSource.Generate
  rw [r.reader.read_len, List.length_replicate]

/-- Witness for C8: a 4-byte source whose reader succeeds yields an identifier
of length 4. -/
theorem C8_generate_length_witness :
    (randomSource.Generate sevenSource).1.length = 4 :=
  C8_generate_length sevenSource rfl

/-- C9 counterexample: against a 16-byte source whose reader reports 0 bytes
read with a nil error, Generate returns a nil error, so Generate does not
fail on a short read in which the source reports fewer than N bytes read
without an I/O error. -/
theorem C9_counterexample :
    shortSource.bytes = 16 ∧
      (shortSource.reader.read (List.replicate 16 0)).2.1 = 0 ∧
      (randomSource.Generate shortSource).2 = none :=
  ⟨rfl, rfl, rfl⟩

/-- C9 amended: Generate returns exactly the error value the underlying Read
reports, so it fails precisely when the source reports an I/O error; the
count of bytes read is discarded, and a short read with a nil error is not
detected. -/
theorem C9_error_is_read_error (r : randomSource) :
    (randomSource.Generate r).2 =
      (r.reader.read (List.replicate r.bytes 0)).2.2 := rfl

/-- C10: for every configured length N and every byte source, Generate hands
back the buffer as the reader left it, of length exactly N, alongside the
unmodified source error, even when that error is non-nil. -/
theorem C10_buffer_always_returned (r : randomSource) :
    (randomSource.Generate r).1 =
        (r.reader.read (List.replicate r.bytes 0)).1 ∧
      (randomSource.Generate r).1.length = r.bytes ∧
      (randomSource.Generate r).2 =
        (r.reader.read (List.replicate r.bytes 0)).2.2 := by
  refine ⟨rfl, ?_, rfl⟩
  unfold randomSource.Generate
  rw [r.reader.read_len, List.length_replicate]

end GoSessionStore
